import Mathlib

/-!
Verification of the Playback Control Coordinator of the two-screen
mobile shell (HLS video player screen), together with the notification
scheduler's delay computation and the URL validation helper.

The definitions below are a shallow embedding of the TypeScript source:
* `src/screens/VideoPlayerScreen.tsx` — the coordinator's event handlers
  (`handlePlaybackStatusUpdate`, `handleSeekStart`, `handleSeekComplete`,
  `handleSeek`, `handleSkip`, `handleFullscreenUpdate`, `handleUrlChange`,
  `fadeInControls`);
* the notification utility (`scheduleLocalNotification`'s delay choice);
* the URL helper (`validateAndNormalizeUrl`).

React `useState` state is gathered into one record; each event handler
becomes a pure function from the state to a new state paired with the
list of asynchronous commands it issues to the player / orientation /
alert collaborators.  The overlay auto-hide timer machinery — the
`hideControlsTimer` ref, the timeouts it points at, and the fade-in
animation's completion callback, which React Native also invokes with
`finished: false` when the animation is interrupted by a newer one — is
modelled as its own event-driven state machine (`overlayStep`), since its
asynchrony is what the timer claims are about.  JS numbers holding
millisecond positions are modelled as `Int` (they are integral in the
source), volume and the random draw as `Rat`.
-/

/-- Commands the coordinator issues to its collaborators (the media
player, the orientation service, the alert box).  They are fire-and-forget
from the coordinator's point of view. -/
inductive Command where
  | setPositionAsync (ms : Int)
  | playAsync
  | pauseAsync
  | setVolumeAsync (v : Rat)
  | lockLandscapeLeft
  | lockPortrait
  | alert (title message : String)
  deriving Repr, DecidableEq

/-- The React state of `VideoPlayerScreen` (the `useState` hooks).  The
auto-hide timer machinery (the `hideControlsTimer` ref and the timeouts
it points at) is not React state and is modelled separately by
`OverlayTimerState` and `overlayStep` below, with its real asynchrony. -/
structure PlayerState where
  currentVideoUrl : String
  inputVideoUrl : String
  isPlaying : Bool
  isFullscreen : Bool
  duration : Int
  position : Int
  volume : Rat
  isBuffering : Bool
  controlsVisible : Bool
  isSeeking : Bool
  deriving Repr, DecidableEq

/-- `INITIAL_HLS_URL` from the source. -/
def INITIAL_HLS_URL : String := "https://test-streams.mux.dev/x36xhzz/x36xhzz.m3u8"

/-- `SKIP_TIME_MS = 10000` from the source. -/
def SKIP_TIME_MS : Int := 10000

/-- The screen's initial state: all `useState` initial values. -/
def initState : PlayerState :=
  { currentVideoUrl := INITIAL_HLS_URL
    inputVideoUrl := INITIAL_HLS_URL
    isPlaying := false
    isFullscreen := false
    duration := 0
    position := 0
    volume := 1
    isBuffering := false
    controlsVisible := true
    isSeeking := false }

/-- A loaded playback status snapshot (`AVPlaybackStatusSuccess`).
`durationMillis` is optional in the underlying player API; the other
fields are always present on a loaded status. -/
structure AVPlaybackStatusSuccess where
  positionMillis : Int
  durationMillis : Option Int
  isPlaying : Bool
  isBuffering : Bool
  didJustFinish : Bool
  deriving Repr, DecidableEq

/-- JS `x || 0` on an integral number: `0` stays `0`, everything else is
returned unchanged (on `Int` this is the identity, written out to mirror
the source's defensive `successStatus.positionMillis || 0`). -/
def jsOrZero (x : Int) : Int := if x = 0 then 0 else x

/-- JS `x || 0` on an optional integral number, mirroring
`successStatus.durationMillis || 0` (`undefined` and `0` both give `0`). -/
def jsOrZeroOpt (x : Option Int) : Int :=
  match x with
  | none => 0
  | some v => jsOrZero v

/-- The effect of `fadeInControls` on the screen's React state: the only
`useState` write in its body is `setControlsVisible(true)`.  Its other
effects — `clearTimeout` on the `hideControlsTimer` ref and the arming of
a new timeout inside the fade-in animation's completion callback — act on
the timer machinery, not on React state, and are modelled with their real
asynchrony by `overlayStep` below. -/
def fadeInControls (s : PlayerState) : PlayerState :=
  { s with controlsVisible := true }

/-- `handlePlaybackStatusUpdate` from the source.  An unloaded status
(`status.isLoaded` false) is `none` and is ignored.  On a loaded status:
the displayed position is updated (to `positionMillis || 0`) only when no
seek gesture is active; playing, duration and buffering always update;
when `didJustFinish` is set, playing is forced off and one seek-to-0
command is issued. -/
def handlePlaybackStatusUpdate (s : PlayerState)
    (status : Option AVPlaybackStatusSuccess) : PlayerState × List Command :=
  match status with
  | none => (s, [])
  | some st =>
    let s1 := if s.isSeeking then s else { s with position := jsOrZero st.positionMillis }
    let s2 := { s1 with
                isPlaying := st.isPlaying
                duration := jsOrZeroOpt st.durationMillis
                isBuffering := st.isBuffering }
    if st.didJustFinish then
      ({ s2 with isPlaying := false }, [Command.setPositionAsync 0])
    else
      (s2, [])

/-- `handleSeekStart` from the source: raise the seeking flag and pause
playback. -/
def handleSeekStart (s : PlayerState) : PlayerState × List Command :=
  ({ s with isSeeking := true }, [Command.pauseAsync])

/-- `handleSeek` from the source: issue one seek command with the given
position, set the displayed position to it, and refresh the overlay via
`fadeInControls`.  (The source guards on the video ref being mounted; the
mounted case is modelled.) -/
def handleSeek (s : PlayerState) (newPosition : Int) : PlayerState × List Command :=
  (fadeInControls { s with position := newPosition },
   [Command.setPositionAsync newPosition])

/-- `handleSeekComplete` from the source: forward the committed slider
value to `handleSeek`, resume playback, and clear the seeking flag.  (The
source first unwraps an array-valued slider callback argument to its
first element; the slider delivers a scalar, modelled directly.) -/
def handleSeekComplete (s : PlayerState) (value : Int) : PlayerState × List Command :=
  let r := handleSeek s value
  ({ r.1 with isSeeking := false }, r.2 ++ [Command.playAsync])

/-- The two skip directions of `handleSkip`. -/
inductive SkipDirection where
  | forward
  | backward
  deriving Repr, DecidableEq

/-- `handleSkip` from the source: forward moves to
`min(position + 10000, duration)`, backward to
`max(position - 10000, 0)`; one seek command is issued and the overlay is
refreshed. -/
def handleSkip (s : PlayerState) (direction : SkipDirection) : PlayerState × List Command :=
  let newPosition :=
    match direction with
    | .forward => min (s.position + SKIP_TIME_MS) s.duration
    | .backward => max (s.position - SKIP_TIME_MS) 0
  (fadeInControls { s with position := newPosition },
   [Command.setPositionAsync newPosition])

/-- `handleFullscreenUpdate` from the source: on event code 1
(`WILL_PRESENT`) set fullscreen and issue a landscape orientation lock;
on event code 2 (`WILL_DISMISS`) clear fullscreen and issue a portrait
lock; in every case refresh the overlay. -/
def handleFullscreenUpdate (s : PlayerState) (fullscreenUpdate : Nat) :
    PlayerState × List Command :=
  if fullscreenUpdate = 1 then
    (fadeInControls { s with isFullscreen := true }, [Command.lockLandscapeLeft])
  else if fullscreenUpdate = 2 then
    (fadeInControls { s with isFullscreen := false }, [Command.lockPortrait])
  else
    (fadeInControls s, [])

/-- One character of ASCII whitespace, as trimmed by JS
`String.prototype.trim` on the inputs considered here. -/
def isWhitespaceChar (c : Char) : Bool :=
  c == ' ' || c == '\t' || c == '\n' || c == '\r'

/-- JS `String.prototype.trim` (restricted to ASCII whitespace): drop
leading and trailing whitespace characters. -/
def jsTrim (s : String) : String :=
  String.mk ((((s.data.dropWhile isWhitespaceChar).reverse).dropWhile isWhitespaceChar).reverse)

/-- Does `needle` occur at the head of `hay`? -/
def matchesHere : List Char → List Char → Bool
  | [], _ => true
  | _ :: _, [] => false
  | a :: as, b :: bs => a == b && matchesHere as bs

/-- Does `needle` occur anywhere in `hay`? -/
def subListOf (needle : List Char) : List Char → Bool
  | [] => matchesHere needle []
  | c :: rest => matchesHere needle (c :: rest) || subListOf needle rest

/-- JS `hay.includes(needle)`. -/
def strIncludes (hay needle : String) : Bool := subListOf needle.data hay.data

/-- `handleUrlChange` from the source: the input URL is accepted when its
trimmed length exceeds 10 and the (untrimmed) input contains `"http"`;
acceptance installs it as the current URL and resets playing, duration
and position; rejection only raises an alert. -/
def handleUrlChange (s : PlayerState) : PlayerState × List Command :=
  if 10 < (jsTrim s.inputVideoUrl).length ∧ strIncludes s.inputVideoUrl "http" = true then
    ({ s with
        currentVideoUrl := s.inputVideoUrl
        isPlaying := false
        duration := 0
        position := 0 },
     [Command.alert "URL Changed" "New stream source loaded."])
  else
    (s, [Command.alert "Invalid URL" "Please enter a valid stream URL."])

/-- Iterate an event handler over a list of inputs, accumulating the
emitted commands in order. -/
def runEvents {α : Type} (f : PlayerState → α → PlayerState × List Command)
    (s : PlayerState) : List α → PlayerState × List Command
  | [] => (s, [])
  | e :: es =>
    let r := f s e
    let rest := runEvents f r.1 es
    (rest.1, r.2 ++ rest.2)

/-- The auto-hide timer machinery of `fadeInControls`, modelled with its
real asynchrony.  `liveTimers` counts every armed, not-yet-cleared
auto-hide timeout; `refTracksLive` says whether the `hideControlsTimer`
ref currently holds the handle of a live timeout (a callback that
overwrites the ref orphans any live timeout it was tracking, leaving it
armed but uncancellable); `cbPending` says a fade-in animation is in
flight, its completion callback not yet run.  `isPlaying` is the value
the arming callback's closure reads. -/
structure OverlayTimerState where
  isPlaying : Bool
  liveTimers : Nat
  refTracksLive : Bool
  cbPending : Bool
  deriving Repr, DecidableEq

/-- The events driving the overlay timer machinery: a `fadeInControls`
call, and the in-flight fade-in animation running to completion (its
callback invoked with `finished: true`). -/
inductive OverlayEvent where
  | fadeCall
  | animComplete
  deriving Repr, DecidableEq

/-- The fade-in animation's end callback from the source: when playing,
`hideControlsTimer.current = setTimeout(fadeOutControls, 3000)` — a new
timeout is armed and the ref is overwritten with its handle (without
clearing whatever live handle the ref held).  The source ignores the
callback's `finished` flag, so this body runs on interruption too. -/
def runArmCallback (s : OverlayTimerState) : OverlayTimerState :=
  if s.isPlaying then
    { s with liveTimers := s.liveTimers + 1, refTracksLive := true }
  else s

/-- `if (hideControlsTimer.current) clearTimeout(hideControlsTimer.current)`
from the source: kills the tracked timeout when the ref holds a live one;
orphaned timeouts are unreachable from the ref and survive. -/
def clearTrackedTimer (s : OverlayTimerState) : OverlayTimerState :=
  if s.refTracksLive then
    { s with liveTimers := s.liveTimers - 1, refTracksLive := false }
  else s

/-- One step of the overlay timer machinery.  `fadeCall`: the source
first clears the tracked timeout, then starts a new `Animated.timing` on
`fadeAnim` — which interrupts any in-flight fade-in, invoking its end
callback with `finished: false`; since the source ignores that flag, the
interrupted callback still arms a timeout — and registers the new
animation's callback.  `animComplete`: the in-flight animation finishes
and its callback arms a timeout. -/
def overlayStep (s : OverlayTimerState) : OverlayEvent → OverlayTimerState
  | .fadeCall =>
    let s1 := clearTrackedTimer s
    let s2 := if s1.cbPending then runArmCallback s1 else s1
    { s2 with cbPending := true }
  | .animComplete =>
    if s.cbPending then { (runArmCallback s) with cbPending := false } else s

/-- Run the overlay timer machinery over a sequence of events. -/
def runOverlay (s : OverlayTimerState) : List OverlayEvent → OverlayTimerState
  | [] => s
  | e :: es => runOverlay (overlayStep s e) es

/-- The overlay timer machinery's initial state while playback is
active: no timeout armed, ref empty, no animation in flight. -/
def overlayInit : OverlayTimerState :=
  { isPlaying := true, liveTimers := 0, refTracksLive := false, cbPending := false }

/-- Count the commands in a list satisfying a predicate. -/
def countCmd (p : Command → Bool) (cs : List Command) : Nat :=
  (cs.filter p).length

/-- Is this command a landscape orientation lock? -/
def isLandscapeLock (c : Command) : Bool :=
  match c with
  | .lockLandscapeLeft => true
  | _ => false

/-- Is this command a portrait orientation lock? -/
def isPortraitLock (c : Command) : Bool :=
  match c with
  | .lockPortrait => true
  | _ => false

/-- Is this command a seek (`setPositionAsync`)? -/
def isSeekCmd (c : Command) : Bool :=
  match c with
  | .setPositionAsync _ => true
  | _ => false

/-! ## Shared helper lemmas -/

theorem countCmd_append (p : Command → Bool) (a b : List Command) :
    countCmd p (a ++ b) = countCmd p a + countCmd p b := by
  simp [countCmd, List.filter_append]

/-! ## Claims -/

/-- The status tick used as the concrete C1 counterexample: reported
position 200000 with known duration 120000. -/
def c1Tick : AVPlaybackStatusSuccess :=
  { positionMillis := 200000
    durationMillis := some 120000
    isPlaying := true
    isBuffering := false
    didJustFinish := false }

/-- C1 counterexample: with no seek gesture active and duration 120000 > 0,
a tick reporting position 200000 leaves the displayed position at 200000,
not capped at the duration — the handler performs no clamping. -/
theorem c1_counterexample :
    (handlePlaybackStatusUpdate initState (some c1Tick)).1.position = 200000 ∧
    (handlePlaybackStatusUpdate initState (some c1Tick)).1.duration = 120000 ∧
    (handlePlaybackStatusUpdate initState (some c1Tick)).1.position ≠
      max 0 (min c1Tick.positionMillis
        (handlePlaybackStatusUpdate initState (some c1Tick)).1.duration) := by
  decide

/-- C1 (amended): while no seek gesture is active, the displayed position
after a tick equals that tick's positionMillis as reported (`|| 0`),
without any clamping to `[0, duration]`; the seeking flag is unchanged by
the tick, so this holds after every tick of a seek-free sequence. -/
theorem c1_position_unclamped (s : PlayerState) (st : AVPlaybackStatusSuccess)
    (h : s.isSeeking = false) :
    (handlePlaybackStatusUpdate s (some st)).1.position = jsOrZero st.positionMillis ∧
    (handlePlaybackStatusUpdate s (some st)).1.isSeeking = s.isSeeking := by
  unfold handlePlaybackStatusUpdate
  simp only [h, Bool.false_eq_true, if_false]
  split <;> simp [h]

/-- C1 witness: the amended statement evaluated on the concrete tick. -/
theorem c1_position_unclamped_witness :
    (handlePlaybackStatusUpdate initState (some c1Tick)).1.position = jsOrZero c1Tick.positionMillis ∧
    (handlePlaybackStatusUpdate initState (some c1Tick)).1.isSeeking = initState.isSeeking :=
  c1_position_unclamped initState c1Tick rfl

/-- C2 counterexample: two consecutive will-present events (code 1) issue
two landscape lock commands — the handler does not track the last
committed state, so duplicate events for the same edge are not
idempotent. -/
theorem c2_counterexample :
    countCmd isLandscapeLock (runEvents handleFullscreenUpdate initState [1, 1]).2 = 2 ∧
    ¬ countCmd isLandscapeLock (runEvents handleFullscreenUpdate initState [1, 1]).2 ≤ 1 := by
  decide

theorem handleFullscreenUpdate_cmds (s : PlayerState) (e : Nat) :
    (handleFullscreenUpdate s e).2 =
      if e = 1 then [Command.lockLandscapeLeft]
      else if e = 2 then [Command.lockPortrait]
      else [] := by
  unfold handleFullscreenUpdate
  split
  · simp_all
  · split <;> simp_all

/-- C2 (amended): every will-present event (code 1) issues exactly one
landscape lock command and every will-dismiss event (code 2) exactly one
portrait lock command — including duplicates: over any event sequence the
number of landscape locks equals the number of will-present events and
the number of portrait locks equals the number of will-dismiss events, so
a re-emitted event for the same edge issues an additional lock call
rather than being skipped. -/
theorem c2_lock_per_event (s : PlayerState) (events : List Nat) :
    countCmd isLandscapeLock (runEvents handleFullscreenUpdate s events).2 =
      (events.filter (fun e => e = 1)).length ∧
    countCmd isPortraitLock (runEvents handleFullscreenUpdate s events).2 =
      (events.filter (fun e => e = 2)).length := by
  induction events generalizing s with
  | nil => simp [runEvents, countCmd]
  | cons e es ih =>
    have hc := handleFullscreenUpdate_cmds s e
    simp only [runEvents, countCmd_append]
    rcases ih (handleFullscreenUpdate s e).1 with ⟨ih1, ih2⟩
    constructor
    · rw [ih1, hc]
      by_cases h1 : e = 1
      · simp [h1, countCmd, isLandscapeLock]
        omega
      · by_cases h2 : e = 2 <;> simp [h1, h2, countCmd, isLandscapeLock]
    · rw [ih2, hc]
      by_cases h1 : e = 1
      · simp [h1, countCmd, isPortraitLock]
      · by_cases h2 : e = 2 <;> simp [h1, h2, countCmd, isPortraitLock]
        omega

/-- C3: while a seek gesture is active, a status tick leaves the
displayed position unchanged, while duration, buffering and playing still
update from the tick (playing is forced off when the tick reports
`didJustFinish`); an explicit drag update (`handleSeek`) is what changes
the displayed position. -/
theorem c3_seek_suppresses_ticks (s : PlayerState) (st : AVPlaybackStatusSuccess)
    (h : s.isSeeking = true) :
    (handlePlaybackStatusUpdate s (some st)).1.position = s.position ∧
    (handlePlaybackStatusUpdate s (some st)).1.duration = jsOrZeroOpt st.durationMillis ∧
    (handlePlaybackStatusUpdate s (some st)).1.isBuffering = st.isBuffering ∧
    (handlePlaybackStatusUpdate s (some st)).1.isPlaying =
      (if st.didJustFinish then false else st.isPlaying) ∧
    (∀ v : Int, (handleSeek s v).1.position = v) := by
  unfold handlePlaybackStatusUpdate
  simp only [h, if_true]
  split <;> simp_all [handleSeek, fadeInControls]

/-- The state used as the concrete input of several witnesses: a seek
gesture is active and the duration is known. -/
def seekingState : PlayerState :=
  { initState with isSeeking := true, duration := 120000, position := 42000 }

/-- The status tick used by the C3 witness. -/
def c3Tick : AVPlaybackStatusSuccess :=
  { positionMillis := 90000
    durationMillis := some 120000
    isPlaying := true
    isBuffering := true
    didJustFinish := false }

/-- C3 witness: the statement evaluated on a concrete seeking state and
tick. -/
theorem c3_seek_suppresses_ticks_witness :
    (handlePlaybackStatusUpdate seekingState (some c3Tick)).1.position = seekingState.position ∧
    (handlePlaybackStatusUpdate seekingState (some c3Tick)).1.duration = jsOrZeroOpt c3Tick.durationMillis ∧
    (handlePlaybackStatusUpdate seekingState (some c3Tick)).1.isBuffering = c3Tick.isBuffering ∧
    (handlePlaybackStatusUpdate seekingState (some c3Tick)).1.isPlaying =
      (if c3Tick.didJustFinish then false else c3Tick.isPlaying) ∧
    (∀ v : Int, (handleSeek seekingState v).1.position = v) :=
  c3_seek_suppresses_ticks seekingState c3Tick rfl

/-- C4 counterexample: committing the value -5000 with duration 120000
sets the position used for the seek command to -5000 itself — the commit
path performs no clamping to `[0, duration]`. -/
theorem c4_counterexample :
    (handleSeekComplete seekingState (-5000)).1.position = -5000 ∧
    (handleSeekComplete seekingState (-5000)).2 =
      [Command.setPositionAsync (-5000), Command.playAsync] ∧
    (handleSeekComplete seekingState (-5000)).1.position ≠
      max 0 (min (-5000) seekingState.duration) := by
  decide

/-- C4 (amended): the seek commit uses the committed value unclamped: it
sets the displayed position to `v`, issues exactly one seek command (with
`v` itself, not `v` clamped to `[0, duration]`), resumes playback, and
returns the controller to the idle (not-seeking) state. -/
theorem c4_commit_unclamped (s : PlayerState) (v : Int) :
    (handleSeekComplete s v).1.position = v ∧
    (handleSeekComplete s v).1.isSeeking = false ∧
    (handleSeekComplete s v).2 = [Command.setPositionAsync v, Command.playAsync] ∧
    countCmd isSeekCmd (handleSeekComplete s v).2 = 1 := by
  simp [handleSeekComplete, handleSeek, fadeInControls, countCmd, isSeekCmd]

/-- C5: evaluation of the overlay timer machinery at the failing event
sequence.  Two `fadeInControls` calls in quick succession while playing
(the second before the first 200 ms fade-in completes), then the second
animation completing: the second call's `Animated.timing(...).start`
interrupts the first animation, whose end callback runs with
`finished: false`; the source ignores that flag and arms a timeout; the
second animation's own callback later arms another and overwrites the
ref without clearing the first — leaving two live auto-hide timers, so
two successive showControls calls do not leave exactly one armed timer
and the at-most-one-pending-timer invariant is violated. -/
theorem c5_two_timers :
    (runOverlay overlayInit [.fadeCall, .fadeCall, .animComplete]).liveTimers = 2 ∧
    ¬ (runOverlay overlayInit [.fadeCall, .fadeCall, .animComplete]).liveTimers ≤ 1 := by
  decide

theorem handleSkip_step (s : PlayerState) (d : SkipDirection)
    (h0 : 0 ≤ s.position) (h1 : s.position ≤ s.duration) :
    0 ≤ (handleSkip s d).1.position ∧
    (handleSkip s d).1.position ≤ (handleSkip s d).1.duration ∧
    (handleSkip s d).1.duration = s.duration := by
  cases d <;> simp [handleSkip, fadeInControls, SKIP_TIME_MS] <;> omega

theorem handleSkip_seq (ds : List SkipDirection) (s : PlayerState)
    (h0 : 0 ≤ s.position) (h1 : s.position ≤ s.duration) :
    0 ≤ (runEvents handleSkip s ds).1.position ∧
    (runEvents handleSkip s ds).1.position ≤ (runEvents handleSkip s ds).1.duration := by
  induction ds generalizing s with
  | nil => exact ⟨h0, h1⟩
  | cons d ds ih =>
    rcases handleSkip_step s d h0 h1 with ⟨g0, g1, g2⟩
    rw [g2] at g1
    exact ih (handleSkip s d).1 g0 (by rw [g2]; exact g1)

/-- C6: starting from an in-range position, skip-forward moves the
position to `min(P + 10000, D)` and skip-backward to `max(P - 10000, 0)`;
any sequence of skip calls keeps the position within `[0, duration]`; and
with duration 120000 and position 5000 a backward skip yields exactly 0. -/
theorem c6_skip_clamped (s : PlayerState)
    (h0 : 0 ≤ s.position) (h1 : s.position ≤ s.duration) :
    (handleSkip s .forward).1.position = min (s.position + 10000) s.duration ∧
    (handleSkip s .backward).1.position = max (s.position - 10000) 0 ∧
    (∀ ds : List SkipDirection,
        0 ≤ (runEvents handleSkip s ds).1.position ∧
        (runEvents handleSkip s ds).1.position ≤ (runEvents handleSkip s ds).1.duration) ∧
    (s.duration = 120000 → s.position = 5000 →
        (handleSkip s .backward).1.position = 0) := by
  refine ⟨rfl, rfl, fun ds => handleSkip_seq ds s h0 h1, fun hd hp => ?_⟩
  simp [handleSkip, fadeInControls, SKIP_TIME_MS, hp]

/-- C6 witness: the statement evaluated at duration 120000 and position
5000, including the concrete backward-skip-to-0 scenario. -/
theorem c6_skip_clamped_witness :
    (handleSkip { initState with duration := 120000, position := 5000 } .forward).1.position =
      min ((5000:Int) + 10000) 120000 ∧
    (handleSkip { initState with duration := 120000, position := 5000 } .backward).1.position =
      max ((5000:Int) - 10000) 0 ∧
    (∀ ds : List SkipDirection,
        0 ≤ (runEvents handleSkip { initState with duration := 120000, position := 5000 } ds).1.position ∧
        (runEvents handleSkip { initState with duration := 120000, position := 5000 } ds).1.position ≤
          (runEvents handleSkip { initState with duration := 120000, position := 5000 } ds).1.duration) ∧
    (({ initState with duration := 120000, position := 5000 } : PlayerState).duration = 120000 →
      ({ initState with duration := 120000, position := 5000 } : PlayerState).position = 5000 →
        (handleSkip { initState with duration := 120000, position := 5000 } .backward).1.position = 0) :=
  c6_skip_clamped { initState with duration := 120000, position := 5000 } (by decide) (by decide)

/-- C7: a status tick whose `didJustFinish` flag is set makes the
coordinator report not-playing and issue exactly one seek command, a seek
to position 0. -/
theorem c7_finish_rewinds (s : PlayerState) (st : AVPlaybackStatusSuccess)
    (h : st.didJustFinish = true) :
    (handlePlaybackStatusUpdate s (some st)).1.isPlaying = false ∧
    (handlePlaybackStatusUpdate s (some st)).2 = [Command.setPositionAsync 0] ∧
    countCmd isSeekCmd (handlePlaybackStatusUpdate s (some st)).2 = 1 := by
  unfold handlePlaybackStatusUpdate
  simp [h, countCmd, isSeekCmd]

/-- The status tick used by the C7 witness: playback just finished. -/
def c7Tick : AVPlaybackStatusSuccess :=
  { positionMillis := 120000
    durationMillis := some 120000
    isPlaying := false
    isBuffering := false
    didJustFinish := true }

/-- C7 witness: the statement evaluated on a concrete finished tick. -/
theorem c7_finish_rewinds_witness :
    (handlePlaybackStatusUpdate initState (some c7Tick)).1.isPlaying = false ∧
    (handlePlaybackStatusUpdate initState (some c7Tick)).2 = [Command.setPositionAsync 0] ∧
    countCmd isSeekCmd (handlePlaybackStatusUpdate initState (some c7Tick)).2 = 1 :=
  c7_finish_rewinds initState c7Tick rfl

/-- C8: with the input field holding `"not-a-url"`, loading is rejected
and the whole state (current URL, position, duration, playing — indeed
every field) is unchanged; with the input field holding
`"https://host/new.m3u8"`, loading is accepted: the URL becomes current
and position, duration and playing are reset to 0, 0, false. -/
theorem c8_loadStream (s : PlayerState) :
    (s.inputVideoUrl = "not-a-url" →
      (handleUrlChange s).1 = s) ∧
    (s.inputVideoUrl = "https://host/new.m3u8" →
      (handleUrlChange s).1 =
        { s with
            currentVideoUrl := "https://host/new.m3u8"
            isPlaying := false
            duration := 0
            position := 0 }) := by
  constructor
  · intro h
    unfold handleUrlChange
    rw [h, if_neg (by decide)]
  · intro h
    unfold handleUrlChange
    rw [h, if_pos (by decide)]

/-- C8 witness: both branches evaluated on concrete input states. -/
theorem c8_loadStream_witness :
    (handleUrlChange { initState with inputVideoUrl := "not-a-url" }).1 =
      { initState with inputVideoUrl := "not-a-url" } ∧
    (handleUrlChange { initState with inputVideoUrl := "https://host/new.m3u8" }).1 =
      { initState with
          inputVideoUrl := "https://host/new.m3u8"
          currentVideoUrl := "https://host/new.m3u8"
          isPlaying := false
          duration := 0
          position := 0 } :=
  ⟨(c8_loadStream { initState with inputVideoUrl := "not-a-url" }).1 rfl,
   (c8_loadStream { initState with inputVideoUrl := "https://host/new.m3u8" }).2 rfl⟩

/-- `MIN_DELAY = 2` from the notification utility. -/
def MIN_DELAY : Int := 2

/-- `MAX_DELAY = 5` from the notification utility. -/
def MAX_DELAY : Int := 5

/-- The delay (in seconds) chosen by `scheduleLocalNotification`: the
caller-provided `delaySeconds` when present, otherwise
`Math.floor(Math.random() * (MAX_DELAY - MIN_DELAY + 1)) + MIN_DELAY`
where `r` stands for the `Math.random()` draw (a number in `[0, 1)`). -/
def scheduleDelay (delaySeconds : Option Rat) (r : Rat) : Rat :=
  match delaySeconds with
  | some d => d
  | none => ((⌊r * ((MAX_DELAY : Rat) - (MIN_DELAY : Rat) + 1)⌋ + MIN_DELAY : Int) : Rat)

/-- C9: when `delaySeconds` is provided the scheduled delay equals it
exactly; when it is omitted the scheduled delay is an integer in the
range `[2, 5]` (the random fallback). -/
theorem c9_notification_delay (delaySeconds : Option Rat) (r : Rat)
    (h0 : 0 ≤ r) (h1 : r < 1) :
    (∀ d, delaySeconds = some d → scheduleDelay delaySeconds r = d) ∧
    (delaySeconds = none →
      (2 ≤ scheduleDelay none r ∧ scheduleDelay none r ≤ 5 ∧
       ∃ k : Int, scheduleDelay none r = (k : Rat))) := by
  constructor
  · intro d hd
    rw [hd]
    rfl
  · intro _
    have h4 : ((MAX_DELAY : Rat) - (MIN_DELAY : Rat) + 1) = 4 := by
      norm_num [MAX_DELAY, MIN_DELAY]
    have hlo : (0 : Int) ≤ ⌊r * ((MAX_DELAY : Rat) - (MIN_DELAY : Rat) + 1)⌋ := by
      rw [h4]
      exact Int.floor_nonneg.mpr (by positivity)
    have hhi : ⌊r * ((MAX_DELAY : Rat) - (MIN_DELAY : Rat) + 1)⌋ < 4 := by
      rw [h4]
      rw [Int.floor_lt]
      push_cast
      nlinarith
    refine ⟨?_, ?_, ⟨⌊r * ((MAX_DELAY : Rat) - (MIN_DELAY : Rat) + 1)⌋ + MIN_DELAY, rfl⟩⟩
    · show (2 : Rat) ≤ ((⌊r * ((MAX_DELAY : Rat) - (MIN_DELAY : Rat) + 1)⌋ + MIN_DELAY : Int) : Rat)
      have : (2 : Int) ≤ ⌊r * ((MAX_DELAY : Rat) - (MIN_DELAY : Rat) + 1)⌋ + MIN_DELAY := by
        have hm : MIN_DELAY = 2 := rfl
        omega
      exact_mod_cast this
    · show ((⌊r * ((MAX_DELAY : Rat) - (MIN_DELAY : Rat) + 1)⌋ + MIN_DELAY : Int) : Rat) ≤ 5
      have : ⌊r * ((MAX_DELAY : Rat) - (MIN_DELAY : Rat) + 1)⌋ + MIN_DELAY ≤ (5 : Int) := by
        have hm : MIN_DELAY = 2 := rfl
        omega
      exact_mod_cast this

/-- C9 witness: the statement evaluated at the random draw `1/2` and at
the provided delay 7. -/
theorem c9_notification_delay_witness :
    scheduleDelay (some 7) (1/2) = 7 ∧
    (2 ≤ scheduleDelay none (1/2) ∧ scheduleDelay none (1/2) ≤ 5 ∧
     ∃ k : Int, scheduleDelay none (1/2) = (k : Rat)) :=
  ⟨(c9_notification_delay (some 7) (1/2) (by norm_num) (by norm_num)).1 7 rfl,
   (c9_notification_delay none (1/2) (by norm_num) (by norm_num)).2 rfl⟩

/-- The result record of the URL helper. -/
structure UrlValidationResult where
  isValid : Bool
  normalizedUrl : Option String
  deriving Repr, DecidableEq

/-- The part of a parsed `URL` object the helper reads: its `protocol`
(scheme plus `":"`) and its normalized `href`. -/
structure UrlObject where
  protocol : String
  href : String
  deriving Repr, DecidableEq

/-- JS `String.prototype.toLowerCase` (ASCII). -/
def jsToLower (s : String) : String :=
  String.mk (s.data.map Char.toLower)

/-- The source's scheme test, the case-insensitive regular expression
anchored at the start matching `http://` or `https://`. -/
def hasHttpScheme (s : String) : Bool :=
  matchesHere "http://".data (jsToLower s).data ||
  matchesHere "https://".data (jsToLower s).data

/-- The string `validateAndNormalizeUrl` hands to the `URL` constructor:
the trimmed input, with `"https://"` prepended when no http/https scheme
is present. -/
def urlToTest (rawUrl : String) : String :=
  let trimmedUrl := jsTrim rawUrl
  if hasHttpScheme trimmedUrl then trimmedUrl else "https://" ++ trimmedUrl

/-- `validateAndNormalizeUrl` from the source, parameterized by
`parseUrl`, the host platform's WHATWG `URL` constructor (`none` models a
thrown `TypeError`): reject empty/whitespace-only input; normalize by
prepending `https://` when no scheme is present; accept exactly when the
parsed URL's lower-cased protocol is `http:` or `https:`, returning the
parser's `href` as the normalized URL. -/
def validateAndNormalizeUrl (parseUrl : String → Option UrlObject)
    (rawUrl : String) : UrlValidationResult :=
  let trimmedUrl := jsTrim rawUrl
  if trimmedUrl = "" then
    { isValid := false, normalizedUrl := none }
  else
    match parseUrl (urlToTest rawUrl) with
    | none => { isValid := false, normalizedUrl := none }
    | some urlObject =>
      if jsToLower urlObject.protocol = "http:" ∨ jsToLower urlObject.protocol = "https:" then
        { isValid := true, normalizedUrl := some urlObject.href }
      else
        { isValid := false, normalizedUrl := none }

/-- C10: for any platform URL parser, (1) empty or whitespace-only input
yields `{isValid := false, normalizedUrl := none}`; (2) nonempty input
without an http/https scheme has `"https://"` prepended before being
parsed; (3) the bare hostname `"google.com"` is accepted with an https
normalized URL whenever the parser accepts `"https://google.com"` with
protocol `https:`; and (4) `isValid` is true only when the parsed URL's
protocol is `http:` or `https:`. -/
theorem c10_validateAndNormalizeUrl (parseUrl : String → Option UrlObject) :
    (∀ raw, jsTrim raw = "" →
        validateAndNormalizeUrl parseUrl raw = { isValid := false, normalizedUrl := none }) ∧
    (∀ raw, hasHttpScheme (jsTrim raw) = false →
        urlToTest raw = "https://" ++ jsTrim raw) ∧
    (∀ u, parseUrl "https://google.com" = some u → jsToLower u.protocol = "https:" →
        validateAndNormalizeUrl parseUrl "google.com" =
          { isValid := true, normalizedUrl := some u.href }) ∧
    (∀ raw, (validateAndNormalizeUrl parseUrl raw).isValid = true →
        ∃ u, parseUrl (urlToTest raw) = some u ∧
          (jsToLower u.protocol = "http:" ∨ jsToLower u.protocol = "https:")) := by
  refine ⟨?_, ?_, ?_, ?_⟩
  · intro raw h
    unfold validateAndNormalizeUrl
    rw [h]
    rfl
  · intro raw h
    unfold urlToTest
    simp [h]
  · intro u hp hproto
    have ht : urlToTest "google.com" = "https://google.com" := by decide
    unfold validateAndNormalizeUrl
    rw [if_neg (by decide), ht, hp]
    simp [hproto]
  · intro raw h
    unfold validateAndNormalizeUrl at h
    rcases hp : parseUrl (urlToTest raw) with _ | u
    · simp only [hp] at h
      split_ifs at h
    · simp only [hp] at h
      split_ifs at h with h1 h2
      exact ⟨u, rfl, h2⟩

/-- The toy platform parser used by the C10 witness: it accepts exactly
`"https://google.com"`. -/
def toyParseUrl (s : String) : Option UrlObject :=
  if s = "https://google.com" then
    some { protocol := "https:", href := "https://google.com/" }
  else
    none

/-- C10 witness: the statement evaluated with the toy parser on a
whitespace-only input and on the bare hostname. -/
theorem c10_validateAndNormalizeUrl_witness :
    validateAndNormalizeUrl toyParseUrl "   " = { isValid := false, normalizedUrl := none } ∧
    validateAndNormalizeUrl toyParseUrl "google.com" =
      { isValid := true, normalizedUrl := some "https://google.com/" } :=
  ⟨(c10_validateAndNormalizeUrl toyParseUrl).1 "   " (by decide),
   (c10_validateAndNormalizeUrl toyParseUrl).2.2.1
     { protocol := "https:", href := "https://google.com/" } (by decide) (by decide)⟩
